import Mathlib

/-!
Shallow embedding of the BulkPaymentFeature Lightning Web Component
(file force-app/main/default/lwc/bulkPaymentFeature/bulkPaymentFeature.js,
current revision) together with the earlier revision of the same
component kept in the repository.  The component state becomes a
structure, the event handlers become state-transition functions, and
the externally visible side effects (alert dialogs, history-replacing
navigations, backend calls) are collected in an explicit effect list.
Monetary amounts are modelled as exact rationals.
-/

namespace BulkPay

/-- Character for a single decimal digit d (0 ≤ d ≤ 9), as produced by
number formatting. -/
def digitChar (d : ℕ) : Char := Char.ofNat (48 + d)

/-- Rounded hundredths of a rational: the floor of 100 * x + 1 / 2,
computed directly from the numerator and denominator so that the
function evaluates by kernel reduction. -/
def centsOf (x : ℚ) : ℤ := Int.fdiv (200 * x.num + (x.den : ℤ)) (2 * (x.den : ℤ))

/-- Model of the JavaScript call Number.prototype.toFixed(2) on an
exact rational: round to the nearest hundredth (ties upward), then
print a sign, the integer part, a dot and exactly two fractional
digits. -/
def toFixed2 (x : ℚ) : String :=
  (if centsOf x < 0 then "-" else "") ++ toString ((centsOf x).natAbs / 100) ++
    String.mk ['.', digitChar ((centsOf x).natAbs / 10 % 10),
               digitChar ((centsOf x).natAbs % 10)]

/-- Invoice header record as returned by the Apex fetch call, before
the component augments it.  accountRefName models the optional chain
natdev24__Account__r?.Name; balanceOutstanding models the nullable
field natdev24__Balance_Outstanding__c; currencyName models
natdev24__Currency__r.Name. -/
structure RawInvoice where
  Id : String
  Name : String
  accountRefName : Option String
  balanceOutstanding : Option ℚ
  currencyName : String
deriving DecidableEq, Repr

/-- Invoice record as stored in this.invoiceRecords after the component
adds the flattened accountName display field. -/
structure Invoice where
  Id : String
  Name : String
  accountName : String
  balanceOutstanding : Option ℚ
  currencyName : String
deriving DecidableEq, Repr

/-- Label/value pair built from a chart-of-accounts record by
loadBankAccounts. -/
structure BankOption where
  label : String
  value : String
deriving DecidableEq, Repr

/-- Parameter object passed to the bulk-payment Apex method by
handlePay.  headerList stands for piHeaderList or siHeaderList,
depending on the resolved invoice type. -/
structure PayParams where
  exchangeRate : String
  selectedNominalCode : String
  totalInvoiceAmount : String
  postingDate : String
  reference : String
  headerList : List Invoice
deriving DecidableEq, Repr

/-- Externally visible side effects of the component: an alert dialog
(LightningAlert.open), a history-replacing navigation
(window.location.replace), an issued auxiliary backend call, an
invocation of a bulk-payment processing method with its parameters,
and an uncaught runtime error thrown by a handler, recorded by its
name. -/
inductive Effect where
  | alert (title message theme : String)
  | navReplace (url : String)
  | apexCall (method : String)
  | processCall (method : String) (params : PayParams)
  | scriptError (name : String)
deriving DecidableEq, Repr

/-- Tracked state of the component.  recordIds is the comma-separated
identifier input, with the empty string modelling an absent value;
invoiceInfoApiName is the apiName field of invoiceInfo, none while
invoiceInfo is still the empty object. -/
structure ComponentState where
  recordIds : String
  invoiceRecords : List Invoice
  selectedRows : List String
  paymentDate : String
  bankAccount : String
  exchangeRate : String
  paymentReference : String
  bankAccountOptions : List BankOption
  invoiceType : String
  invoiceInfoApiName : Option String
  isLoading : Bool
deriving DecidableEq, Repr

/-- Outcome of the awaited bulk-payment backend call: it either throws,
or returns a value whose JavaScript truthiness is recorded. -/
inductive ProcessOutcome where
  | threw
  | returned (truthy : Bool)
deriving DecidableEq, Repr

/-- URL that the template literal in handleCancel of the current
revision builds: it interpolates this.invoiceInfo.apiName, which
prints the literal text undefined while invoiceInfo is still the empty
object.  The string is computed (the right-hand side is evaluated
first) but never used, because the subsequent assignment throws. -/
def cancelUrl (s : ComponentState) : String :=
  "/lightning/o/" ++ s.invoiceInfoApiName.getD "undefined" ++ "/list?filterName=Recent"

/-- Embeds handleCancel of the current revision.  The handler assigns
the URL to the undeclared variable url; the component file is an ES
module and therefore strict-mode code, so the assignment throws a
ReferenceError before window.location.replace is reached.  No
navigation ever occurs; the thrown error is the only observable
effect. -/
def handleCancel (_s : ComponentState) : List Effect :=
  [Effect.scriptError "ReferenceError"]

/-- Embeds showAlert: one non-navigating alert dialog. -/
def showAlertFx (title message theme : String) : List Effect :=
  [Effect.alert title message theme]

/-- Embeds showAlertAndReturn: an alert dialog followed (after a short
delay) by the deferred handleCancel call, which in the current
revision throws instead of navigating. -/
def showAlertAndReturnFx (s : ComponentState) (title message theme : String) :
    List Effect :=
  Effect.alert title message theme :: handleCancel s

/-- Embeds checkRecordsIsSelected: alert and attempt to route back
when no record identifiers were provided. -/
def checkRecordsIsSelected (s : ComponentState) : List Effect :=
  if s.recordIds = "" then
    showAlertAndReturnFx s "Error" "Select Invoices with Outstanding Balance" "error"
  else []

/-- Embeds the synchronous effects of connectedCallback: the record
check, the unconditional bank-account load, and the type-resolution
call that getObjectTypeAndLoadInvoiceDetails issues only when recordIds
is present. -/
def connectedCallback (s : ComponentState) : List Effect :=
  checkRecordsIsSelected s ++
    Effect.apexCall "getBankAccounts" ::
      (if s.recordIds = "" then [] else [Effect.apexCall "getInvoiceType"])

/-- Embeds the record augmentation done in the fulfilled branch of
loadInvoiceDetails: spread the fetched record and add accountName from
the optional nested account reference, defaulting to the empty
string. -/
def augment (r : RawInvoice) : Invoice :=
  { Id := r.Id, Name := r.Name, accountName := r.accountRefName.getD "",
    balanceOutstanding := r.balanceOutstanding, currencyName := r.currencyName }

/-- Distinct currency names of the loaded records, as collected by the
JavaScript Set in loadInvoiceDetails. -/
def distinctCurrencies (invs : List Invoice) : List String :=
  (invs.map Invoice.currencyName).dedup

/-- Embeds the fulfilled branch of loadInvoiceDetails: store the
augmented records, preselect all of them, clear the loading flag, then
alert and attempt to route back when zero records were returned, and
alert and attempt to route back when more than one distinct currency
is present. -/
def loadInvoiceSuccess (s : ComponentState) (result : List RawInvoice) :
    ComponentState × List Effect :=
  let recs := result.map augment
  let s1 := { s with invoiceRecords := recs, selectedRows := recs.map Invoice.Id,
                     isLoading := false }
  let fx1 := if recs.length = 0 then
      showAlertAndReturnFx s1 "Error" "Select Invoices with Outstanding Balance" "error"
    else []
  let fx2 := if 1 < (distinctCurrencies recs).length then
      showAlertAndReturnFx s1 "Error" "Select Invoices with same Currency" "error"
    else []
  (s1, fx1 ++ fx2)

/-- Embeds the totalAmount getter of the current revision: filter the
loaded records by membership of their identifier in selectedRows, sum
the outstanding balances with a missing balance coerced to zero, and
format the sum with toFixed(2). -/
def totalAmount (s : ComponentState) : String :=
  toFixed2 ((s.invoiceRecords.filter (fun inv => s.selectedRows.contains inv.Id)).foldl
    (fun sum inv => sum + inv.balanceOutstanding.getD 0) 0)

/-- Embeds getApexControllerMethodForProcessBulkPayment: the name of
the processing method for the resolved invoice type, or none. -/
def getApexControllerMethodForProcessBulkPayment (invoiceType : String) :
    Option String :=
  if invoiceType = "Purchase" then some "processPurchaseInvoiceBulkPayment"
  else if invoiceType = "Sales" then some "processSalesInvoiceBulkPayment"
  else none

/-- Parameter object built by handlePay from the current state. -/
def payParams (s : ComponentState) : PayParams :=
  { exchangeRate := s.exchangeRate, selectedNominalCode := s.bankAccount,
    totalInvoiceAmount := totalAmount s, postingDate := s.paymentDate,
    reference := s.paymentReference,
    headerList := s.invoiceRecords.filter (fun inv => s.selectedRows.contains inv.Id) }

/-- Embeds handlePay of the current revision.  The backend outcome is a
parameter.  The isLoading flag is set at entry and cleared by the
finally block on every path, so only its final value appears in the
resulting state.  A none processing method reproduces the TypeError
thrown when the null method is called, which the surrounding try/catch
turns into the generic processing-error alert; in that case no
processing invocation occurs. -/
def handlePay (s : ComponentState) (backend : ProcessOutcome) :
    ComponentState × List Effect :=
  if s.paymentDate = "" ∨ s.bankAccount = "" ∨ s.exchangeRate = "" ∨
      s.paymentReference = "" then
    ({ s with isLoading := false },
     showAlertFx "Error" "Please fill all mandatory payment details." "error")
  else
    match getApexControllerMethodForProcessBulkPayment s.invoiceType with
    | none =>
        ({ s with isLoading := false },
         showAlertFx "Error" "An error occurred while processing payments." "error")
    | some m =>
        match backend with
        | ProcessOutcome.threw =>
            ({ s with isLoading := false },
             Effect.processCall m (payParams s) ::
               showAlertFx "Error" "An error occurred while processing payments." "error")
        | ProcessOutcome.returned truthy =>
            if truthy then
              ({ s with isLoading := false },
               Effect.processCall m (payParams s) ::
                 showAlertAndReturnFx s "Success"
                   "Selected Invoices are paid with Outstanding Amount" "success")
            else
              ({ s with isLoading := false }, [Effect.processCall m (payParams s)])

/-- True exactly on invocations of a bulk-payment processing method. -/
def Effect.isProcessCall : Effect → Bool
  | Effect.processCall _ _ => true
  | _ => false

/-- True exactly on alert-dialog effects. -/
def Effect.isAlert : Effect → Bool
  | Effect.alert _ _ _ => true
  | _ => false

/-- True exactly on history-replacing navigation effects. -/
def Effect.isNavReplace : Effect → Bool
  | Effect.navReplace _ => true
  | _ => false

/-- Whether an effect list contains an invocation of the external
payment-processing procedure. -/
def processInvoked (fx : List Effect) : Bool := fx.any Effect.isProcessCall

/-- Invoice record of the earlier revision kept in the repository,
which stores the selection marker on the record itself and reads the
field Outstanding_Amount__c. -/
structure EarlyInvoice where
  Id : String
  isSelected : Bool
  outstandingAmount : Option ℚ
deriving DecidableEq, Repr

/-- Form state of the earlier revision used by its handlePay. -/
structure EarlyState where
  invoiceRecords : List EarlyInvoice
  paymentDate : String
  bankAccount : String
  exchangeRate : String
  paymentReference : String
deriving DecidableEq, Repr

/-- Toast event dispatched by the earlier revision. -/
structure Toast where
  title : String
  message : String
  variant : String
deriving DecidableEq, Repr

/-- Embeds handlePay of the earlier revision: an empty selection and
then missing paymentDate or bankAccount short-circuit with warning
toasts; otherwise the revision only logs and toasts success, with no
backend call. -/
def handlePayEarly (s : EarlyState) : List Toast :=
  let selectedInvoices := s.invoiceRecords.filter EarlyInvoice.isSelected
  if selectedInvoices.length = 0 then
    [{ title := "Warning", message := "Please select at least one invoice",
       variant := "warning" }]
  else if s.paymentDate = "" ∨ s.bankAccount = "" then
    [{ title := "Warning", message := "Please fill in payment details",
       variant := "warning" }]
  else
    [{ title := "Success", message := "Payments posted successfully",
       variant := "success" }]

/-- Hardcoded list-view URL used by handleCancel of the earlier
revision. -/
def fallbackListUrl : String :=
  "/lightning/o/natdev24__Purchase_Invoice_Header__c/list?filterName=Recent"

/-- Embeds handleCancel of the earlier revision: one history-replacing
navigation to the hardcoded purchase-invoice list view. -/
def handleCancelEarly : List Effect := [Effect.navReplace fallbackListUrl]

/-- Restates the specification wording for the derived total: the sum
of the outstanding balances over exactly the loaded invoices whose
identifier is in the selection set, a missing balance counting as
zero. -/
def specSelectedOutstandingSum (s : ComponentState) : ℚ :=
  ((s.invoiceRecords.filter (fun inv => decide (inv.Id ∈ s.selectedRows))).map
    (fun inv => inv.balanceOutstanding.getD 0)).sum

/-- Replaces a missing outstanding balance by an explicit zero. -/
def zeroNoneBalance (inv : Invoice) : Invoice :=
  { inv with balanceOutstanding := some (inv.balanceOutstanding.getD 0) }

/-- Initial field values of the component: empty strings, empty lists,
no resolved type, invoiceInfo the empty object. -/
def initState : ComponentState :=
  { recordIds := "", invoiceRecords := [], selectedRows := [], paymentDate := "",
    bankAccount := "", exchangeRate := "", paymentReference := "",
    bankAccountOptions := [], invoiceType := "", invoiceInfoApiName := none,
    isLoading := false }

/-- State in which every payment field is filled and the type is
resolved to Purchase, but nothing is selected. -/
def payReadyEmptySelection : ComponentState :=
  { recordIds := "a1", invoiceRecords := [], selectedRows := [],
    paymentDate := "2025-01-15", bankAccount := "acc1", exchangeRate := "1",
    paymentReference := "ref-1", bankAccountOptions := [],
    invoiceType := "Purchase",
    invoiceInfoApiName := some "natdev24__Purchase_Invoice_Header__c",
    isLoading := false }

/-- State in which every payment field is filled, the type is resolved
to Purchase, and the single loaded invoice is selected. -/
def payReadyState : ComponentState :=
  { recordIds := "a1",
    invoiceRecords := [{ Id := "a1", Name := "INV-1", accountName := "Acme",
                         balanceOutstanding := some 10, currencyName := "USD" }],
    selectedRows := ["a1"], paymentDate := "2025-01-15", bankAccount := "acc1",
    exchangeRate := "1", paymentReference := "ref-1", bankAccountOptions := [],
    invoiceType := "Purchase",
    invoiceInfoApiName := some "natdev24__Purchase_Invoice_Header__c",
    isLoading := false }

theorem digitChar_isDigit {d : ℕ} (h : d < 10) : (digitChar d).isDigit = true := by
  interval_cases d <;> decide

theorem toFixed2_shape (q : ℚ) :
    ∃ pre a b, toFixed2 q = pre ++ String.mk ['.', a, b]
      ∧ a.isDigit = true ∧ b.isDigit = true := by
  refine ⟨(if centsOf q < 0 then "-" else "") ++ toString ((centsOf q).natAbs / 100),
    digitChar ((centsOf q).natAbs / 10 % 10), digitChar ((centsOf q).natAbs % 10),
    ?_, ?_, ?_⟩
  · simp [toFixed2, String.append_assoc]
  · exact digitChar_isDigit (Nat.mod_lt _ (by norm_num))
  · exact digitChar_isDigit (Nat.mod_lt _ (by norm_num))

theorem toFixed2_zero : toFixed2 0 = "0.00" := by decide

theorem foldl_add_getD (l : List Invoice) (a : ℚ) :
    l.foldl (fun sum inv => sum + inv.balanceOutstanding.getD 0) a
      = a + (l.map (fun inv => inv.balanceOutstanding.getD 0)).sum := by
  induction l generalizing a with
  | nil => simp
  | cons x xs ih =>
      simp only [List.foldl_cons, List.map_cons, List.sum_cons, ih]
      ring

theorem filter_contains_eq (recs : List Invoice) (sel : List String) :
    recs.filter (fun inv => sel.contains inv.Id)
      = recs.filter (fun inv => decide (inv.Id ∈ sel)) := by
  apply List.filter_congr
  intro inv _
  simp [List.contains]

/-- C6 counterexample: after a concrete zero-record fetch, the
no-outstanding-invoices error alert is shown but no navigation at all
occurs: the deferred handleCancel throws instead of navigating, so the
navigation-back side effect the claim asserts does not fire. -/
theorem claim_C6_counterexample :
    Effect.alert "Error" "Select Invoices with Outstanding Balance" "error"
        ∈ (loadInvoiceSuccess initState []).2
      ∧ (loadInvoiceSuccess initState []).2.any Effect.isNavReplace = false := by
  refine ⟨?_, rfl⟩
  decide

/-- C6 amended: after a fetch that returns zero invoice records, the
no-outstanding-invoices error alert is shown, and the deferred
navigate-back call then throws a ReferenceError at the undeclared url
variable, so no navigation occurs. -/
theorem claim_C6_empty_load_fails (s : ComponentState) :
    (loadInvoiceSuccess s []).2
      = [Effect.alert "Error" "Select Invoices with Outstanding Balance" "error",
         Effect.scriptError "ReferenceError"]
      ∧ (loadInvoiceSuccess s []).2.any Effect.isNavReplace = false := ⟨rfl, rfl⟩

/-- C2: after a successful fetch of a non-empty record list, the
selection set equals exactly the identifiers of the returned invoice
records: every fetched invoice is preselected and nothing else is
selected. -/
theorem claim_C2_full_preselection (s : ComponentState) (result : List RawInvoice)
    (_hne : result ≠ []) :
    (loadInvoiceSuccess s result).1.selectedRows = result.map RawInvoice.Id
      ∧ ∀ id, id ∈ (loadInvoiceSuccess s result).1.selectedRows
          ↔ id ∈ result.map RawInvoice.Id := by
  have h : (loadInvoiceSuccess s result).1.selectedRows = result.map RawInvoice.Id := by
    simp only [loadInvoiceSuccess, List.map_map]
    rfl
  exact ⟨h, fun id => by rw [h]⟩

theorem claim_C2_witness :
    (loadInvoiceSuccess initState
        [{ Id := "a1", Name := "INV-1", accountRefName := none,
           balanceOutstanding := some 5, currencyName := "USD" }]).1.selectedRows
      = ["a1"] :=
  (claim_C2_full_preselection initState _ (List.cons_ne_nil _ _)).1

/-- C1: for every state, totalAmount equals the sum of the outstanding
balances of exactly the loaded invoices whose identifier is in the
selection set, formatted with a dot and exactly two decimal digits, and
it equals the string 0.00 when no loaded invoice is selected. -/
theorem claim_C1_totalAmount_spec (s : ComponentState) :
    totalAmount s = toFixed2 (specSelectedOutstandingSum s)
      ∧ (∃ pre a b, totalAmount s = pre ++ String.mk ['.', a, b]
          ∧ a.isDigit = true ∧ b.isDigit = true)
      ∧ (s.invoiceRecords.filter (fun inv => decide (inv.Id ∈ s.selectedRows)) = []
          → totalAmount s = "0.00") := by
  have h : totalAmount s = toFixed2 (specSelectedOutstandingSum s) := by
    unfold totalAmount specSelectedOutstandingSum
    rw [filter_contains_eq, foldl_add_getD, zero_add]
  refine ⟨h, h ▸ toFixed2_shape _, fun hfil => ?_⟩
  rw [h]
  unfold specSelectedOutstandingSum
  rw [hfil]
  simpa using toFixed2_zero

theorem claim_C1_witness :
    (initState.invoiceRecords.filter
        (fun inv => decide (inv.Id ∈ initState.selectedRows)) = [])
      ∧ totalAmount initState = "0.00" :=
  ⟨rfl, (claim_C1_totalAmount_spec initState).2.2 rfl⟩

/-- C10: totalAmount is insensitive to selection entries that match no
loaded invoice record, and a selected invoice with a missing
outstanding balance contributes exactly zero: restricting the selection
to identifiers of loaded records, adding a selection entry matching no
record, or materialising the missing balances as explicit zeros all
leave totalAmount unchanged. -/
theorem claim_C10_total_insensitive (s : ComponentState) (id : String)
    (hid : id ∉ s.invoiceRecords.map Invoice.Id) :
    totalAmount { s with selectedRows :=
        s.selectedRows.filter (fun i => (s.invoiceRecords.map Invoice.Id).contains i) }
      = totalAmount s
    ∧ totalAmount { s with selectedRows := id :: s.selectedRows } = totalAmount s
    ∧ totalAmount { s with invoiceRecords := s.invoiceRecords.map zeroNoneBalance }
      = totalAmount s := by
  refine ⟨?_, ?_, ?_⟩
  · unfold totalAmount
    congr 1
    apply congrArg
    apply List.filter_congr
    intro inv hmem
    have hin : inv.Id ∈ s.invoiceRecords.map Invoice.Id :=
      List.mem_map_of_mem Invoice.Id hmem
    simp [List.contains, hin]
    exact fun _ => List.mem_map.mp hin
  · unfold totalAmount
    congr 1
    apply congrArg
    apply List.filter_congr
    intro inv hmem
    have hne : inv.Id ≠ id := by
      intro hEq
      exact hid (hEq ▸ List.mem_map_of_mem Invoice.Id hmem)
    simp [List.contains, hne]
  · unfold totalAmount
    have hfil : (s.invoiceRecords.map zeroNoneBalance).filter
        (fun inv => s.selectedRows.contains inv.Id)
        = (s.invoiceRecords.filter
            (fun inv => s.selectedRows.contains inv.Id)).map zeroNoneBalance := by
      rw [List.filter_map]
      rfl
    rw [hfil, List.foldl_map]
    rfl

theorem claim_C10_witness :
    ("ghost" ∉ payReadyState.invoiceRecords.map Invoice.Id)
      ∧ totalAmount { payReadyState with
            selectedRows := "ghost" :: payReadyState.selectedRows }
          = totalAmount payReadyState :=
  ⟨by decide, (claim_C10_total_insensitive payReadyState "ghost" (by decide)).2.1⟩

/-- C3: whenever one of the four payment-form fields is empty,
handlePay shows only the non-navigating mandatory-details alert, never
invokes the payment-processing procedure, and performs no
navigation. -/
theorem claim_C3_missing_field_blocks (s : ComponentState) (backend : ProcessOutcome)
    (h : s.paymentDate = "" ∨ s.bankAccount = "" ∨ s.exchangeRate = ""
          ∨ s.paymentReference = "") :
    (handlePay s backend).2
        = [Effect.alert "Error" "Please fill all mandatory payment details." "error"]
      ∧ processInvoked (handlePay s backend).2 = false
      ∧ (handlePay s backend).2.any Effect.isNavReplace = false := by
  have hfx : (handlePay s backend).2
      = [Effect.alert "Error" "Please fill all mandatory payment details." "error"] := by
    unfold handlePay
    rw [if_pos h]
    rfl
  exact ⟨hfx, by rw [processInvoked, hfx]; rfl, by rw [hfx]; rfl⟩


theorem claim_C3_witness :
    (initState.paymentDate = "" ∨ initState.bankAccount = ""
        ∨ initState.exchangeRate = "" ∨ initState.paymentReference = "")
      ∧ (handlePay initState (ProcessOutcome.returned true)).2
          = [Effect.alert "Error" "Please fill all mandatory payment details." "error"]
      ∧ processInvoked (handlePay initState (ProcessOutcome.returned true)).2 = false :=
  ⟨Or.inl rfl,
   (claim_C3_missing_field_blocks initState (ProcessOutcome.returned true) (Or.inl rfl)).1,
   (claim_C3_missing_field_blocks initState (ProcessOutcome.returned true) (Or.inl rfl)).2.1⟩

/-- C4 counterexample: with every payment field filled and a resolved
Purchase type but an empty selection, handlePay of the current revision
still invokes the payment-processing procedure, so an empty selection
set does not block submission. -/
theorem claim_C4_counterexample :
    payReadyEmptySelection.selectedRows = []
      ∧ processInvoked
          (handlePay payReadyEmptySelection (ProcessOutcome.returned true)).2 = true :=
  ⟨rfl, rfl⟩

/-- C4 amended: the current revision gates submission only on the four
payment fields and the resolved type: whenever those hold, handlePay
invokes the payment-processing procedure regardless of the selection
set, even when it is empty; only the earlier revision short-circuits
on an empty selection with a warning toast. -/
theorem claim_C4_amended (s : ComponentState) (backend : ProcessOutcome) (m : String)
    (h1 : s.paymentDate ≠ "") (h2 : s.bankAccount ≠ "") (h3 : s.exchangeRate ≠ "")
    (h4 : s.paymentReference ≠ "")
    (hm : getApexControllerMethodForProcessBulkPayment s.invoiceType = some m) :
    processInvoked (handlePay s backend).2 = true
      ∧ (∀ es : EarlyState, es.invoiceRecords.filter EarlyInvoice.isSelected = []
          → handlePayEarly es
              = [{ title := "Warning", message := "Please select at least one invoice",
                   variant := "warning" }]) := by
  constructor
  · unfold handlePay
    rw [if_neg (by simp [h1, h2, h3, h4]), hm]
    cases backend with
    | threw => rfl
    | returned truthy => cases truthy <;> rfl
  · intro es hes
    unfold handlePayEarly
    rw [hes]
    rfl

theorem claim_C4_witness :
    payReadyEmptySelection.paymentDate ≠ ""
      ∧ payReadyEmptySelection.bankAccount ≠ ""
      ∧ payReadyEmptySelection.exchangeRate ≠ ""
      ∧ payReadyEmptySelection.paymentReference ≠ ""
      ∧ getApexControllerMethodForProcessBulkPayment payReadyEmptySelection.invoiceType
          = some "processPurchaseInvoiceBulkPayment"
      ∧ processInvoked
          (handlePay payReadyEmptySelection (ProcessOutcome.returned false)).2 = true :=
  ⟨by decide, by decide, by decide, by decide, rfl,
   (claim_C4_amended payReadyEmptySelection (ProcessOutcome.returned false)
      "processPurchaseInvoiceBulkPayment" (by decide) (by decide) (by decide)
      (by decide) rfl).1⟩

/-- C5 counterexample: with the concrete currencies USD and EUR the
load fails with the currency-mismatch alert, but the navigation-back
side effect the claim asserts does not fire: the deferred handleCancel
throws instead of navigating. -/
theorem claim_C5_counterexample :
    Effect.alert "Error" "Select Invoices with same Currency" "error"
        ∈ (loadInvoiceSuccess initState
            [{ Id := "a1", Name := "I1", accountRefName := none,
               balanceOutstanding := some 5, currencyName := "USD" },
             { Id := "a2", Name := "I2", accountRefName := none,
               balanceOutstanding := some 5, currencyName := "EUR" }]).2
      ∧ (loadInvoiceSuccess initState
            [{ Id := "a1", Name := "I1", accountRefName := none,
               balanceOutstanding := some 5, currencyName := "USD" },
             { Id := "a2", Name := "I2", accountRefName := none,
               balanceOutstanding := some 5, currencyName := "EUR" }]).2.any
          Effect.isNavReplace = false := by
  refine ⟨?_, rfl⟩
  decide

/-- C5 amended: after a successful fetch, more than one distinct
currency name across the loaded records makes the load fail with the
currency-mismatch alert, after which the deferred navigate-back call
throws a ReferenceError at the undeclared url variable, so no
navigation occurs; a non-empty batch sharing a single currency loads
with no alert at all. -/
theorem claim_C5_currency_check (s : ComponentState) (result : List RawInvoice) :
    (1 < (distinctCurrencies (result.map augment)).length
      → (loadInvoiceSuccess s result).2
          = [Effect.alert "Error" "Select Invoices with same Currency" "error",
             Effect.scriptError "ReferenceError"]
        ∧ (loadInvoiceSuccess s result).2.any Effect.isNavReplace = false)
    ∧ (result ≠ []
      → (distinctCurrencies (result.map augment)).length ≤ 1
      → (loadInvoiceSuccess s result).2 = []) := by
  constructor
  · intro hgt
    have hne : result ≠ [] := by
      intro hnil
      rw [hnil] at hgt
      simp [distinctCurrencies] at hgt
    have hlen : ¬ ((result.map augment).length = 0) := by
      simpa [List.length_eq_zero] using hne
    have hfx : (loadInvoiceSuccess s result).2
        = [Effect.alert "Error" "Select Invoices with same Currency" "error",
           Effect.scriptError "ReferenceError"] := by
      unfold loadInvoiceSuccess
      simp only []
      rw [if_neg hlen, if_pos hgt]
      rfl
    exact ⟨hfx, by rw [hfx]; rfl⟩
  · intro hne hle
    have hlen : ¬ ((result.map augment).length = 0) := by
      simpa [List.length_eq_zero] using hne
    unfold loadInvoiceSuccess
    simp only []
    rw [if_neg hlen, if_neg (by omega)]
    rfl

theorem claim_C5_witness :
    1 < (distinctCurrencies
          ([{ Id := "a1", Name := "I1", accountRefName := none,
              balanceOutstanding := some 5, currencyName := "USD" },
            { Id := "a2", Name := "I2", accountRefName := none,
              balanceOutstanding := some 5, currencyName := "EUR" }].map augment)).length
      ∧ (loadInvoiceSuccess initState
          [{ Id := "a1", Name := "I1", accountRefName := none,
             balanceOutstanding := some 5, currencyName := "USD" },
           { Id := "a2", Name := "I2", accountRefName := none,
             balanceOutstanding := some 5, currencyName := "EUR" }]).2
          = [Effect.alert "Error" "Select Invoices with same Currency" "error",
             Effect.scriptError "ReferenceError"]
      ∧ (loadInvoiceSuccess initState
          [{ Id := "a1", Name := "I1", accountRefName := none,
             balanceOutstanding := some 5, currencyName := "USD" },
           { Id := "a2", Name := "I2", accountRefName := none,
             balanceOutstanding := some 5, currencyName := "USD" }]).2 = [] :=
  ⟨by decide,
   ((claim_C5_currency_check initState _).1 (by decide)).1,
   (claim_C5_currency_check initState _).2 (List.cons_ne_nil _ _) (by decide)⟩

/-- C7 counterexample: a submission whose backend call returns a falsy
result produces no alert at all, in particular no generic
processing-error message, although the procedure was invoked. -/
theorem claim_C7_counterexample :
    processInvoked (handlePay payReadyState (ProcessOutcome.returned false)).2 = true
      ∧ (handlePay payReadyState (ProcessOutcome.returned false)).2.any
          Effect.isAlert = false :=
  ⟨rfl, rfl⟩

/-- C7 amended: on a submission that reaches the backend call, a thrown
failure shows the generic processing-error alert while a falsy result
shows no message; in both cases the component does not navigate, leaves
every form field and the selection unchanged, and clears the busy
flag. -/
theorem claim_C7_amended (s : ComponentState) (m : String)
    (h1 : s.paymentDate ≠ "") (h2 : s.bankAccount ≠ "") (h3 : s.exchangeRate ≠ "")
    (h4 : s.paymentReference ≠ "")
    (hm : getApexControllerMethodForProcessBulkPayment s.invoiceType = some m) :
    (handlePay s ProcessOutcome.threw).2
        = [Effect.processCall m (payParams s),
           Effect.alert "Error" "An error occurred while processing payments." "error"]
      ∧ (handlePay s ProcessOutcome.threw).1 = { s with isLoading := false }
      ∧ (handlePay s ProcessOutcome.threw).2.any Effect.isNavReplace = false
      ∧ (handlePay s (ProcessOutcome.returned false)).2
          = [Effect.processCall m (payParams s)]
      ∧ (handlePay s (ProcessOutcome.returned false)).1 = { s with isLoading := false }
      ∧ (handlePay s (ProcessOutcome.returned false)).2.any Effect.isNavReplace
          = false := by
  have hcond : ¬ (s.paymentDate = "" ∨ s.bankAccount = "" ∨ s.exchangeRate = ""
      ∨ s.paymentReference = "") := by simp [h1, h2, h3, h4]
  have ht : handlePay s ProcessOutcome.threw
      = ({ s with isLoading := false },
         [Effect.processCall m (payParams s),
          Effect.alert "Error" "An error occurred while processing payments." "error"]) := by
    unfold handlePay
    rw [if_neg hcond, hm]
    rfl
  have hf : handlePay s (ProcessOutcome.returned false)
      = ({ s with isLoading := false }, [Effect.processCall m (payParams s)]) := by
    unfold handlePay
    rw [if_neg hcond, hm]
    rfl
  refine ⟨?_, ?_, ?_, ?_, ?_, ?_⟩
  · rw [ht]
  · rw [ht]
  · rw [ht]
    rfl
  · rw [hf]
  · rw [hf]
  · rw [hf]
    rfl

theorem claim_C7_witness :
    payReadyState.paymentDate ≠ ""
      ∧ payReadyState.bankAccount ≠ ""
      ∧ payReadyState.exchangeRate ≠ ""
      ∧ payReadyState.paymentReference ≠ ""
      ∧ getApexControllerMethodForProcessBulkPayment payReadyState.invoiceType
          = some "processPurchaseInvoiceBulkPayment"
      ∧ (handlePay payReadyState ProcessOutcome.threw).2
          = [Effect.processCall "processPurchaseInvoiceBulkPayment"
               (payParams payReadyState),
             Effect.alert "Error" "An error occurred while processing payments." "error"]
      ∧ (handlePay payReadyState ProcessOutcome.threw).1
          = { payReadyState with isLoading := false } :=
  ⟨by decide, by decide, by decide, by decide, rfl,
   (claim_C7_amended payReadyState "processPurchaseInvoiceBulkPayment" (by decide)
      (by decide) (by decide) (by decide) rfl).1,
   (claim_C7_amended payReadyState "processPurchaseInvoiceBulkPayment" (by decide)
      (by decide) (by decide) (by decide) rfl).2.1⟩

/-- C8 counterexample: at concrete states, one with a resolved type
and one without, Cancel issues no navigation at all: the handler
throws a ReferenceError at the assignment to the undeclared url
variable before window.location.replace is reached, refuting the
claimed exactly-one navigation. -/
theorem claim_C8_counterexample :
    (handleCancel payReadyState).any Effect.isNavReplace = false
      ∧ (handleCancel initState).any Effect.isNavReplace = false
      ∧ handleCancel payReadyState = [Effect.scriptError "ReferenceError"] :=
  ⟨rfl, rfl, rfl⟩

/-- C8 amended: invoking Cancel in the current revision never
navigates in any state: the assignment to the undeclared url variable
throws a ReferenceError before window.location.replace is reached;
only the earlier revision issues exactly one history-replacing
navigation, always to its hardcoded purchase-invoice list view. -/
theorem claim_C8_amended (s : ComponentState) :
    handleCancel s = [Effect.scriptError "ReferenceError"]
      ∧ (handleCancel s).any Effect.isNavReplace = false
      ∧ handleCancelEarly = [Effect.navReplace fallbackListUrl]
      ∧ handleCancelEarly.length = 1 :=
  ⟨rfl, rfl, rfl, rfl⟩

/-- C9 counterexample: with no record identifiers supplied, the
startup sequence still issues the bank-account load call, so it is not
the case that no load operation is performed. -/
theorem claim_C9_counterexample :
    initState.recordIds = ""
      ∧ Effect.apexCall "getBankAccounts" ∈ connectedCallback initState := by
  refine ⟨rfl, ?_⟩
  decide

/-- C9 amended: with no record identifiers supplied, initialization
shows the user-facing error and then the deferred navigate-back call
throws a ReferenceError at the undeclared url variable, so no
navigation occurs; neither type resolution nor an invoice fetch is
performed, but the bank-account load is still issued
unconditionally. -/
theorem claim_C9_amended (s : ComponentState) (h : s.recordIds = "") :
    connectedCallback s
        = [Effect.alert "Error" "Select Invoices with Outstanding Balance" "error",
           Effect.scriptError "ReferenceError",
           Effect.apexCall "getBankAccounts"]
      ∧ Effect.apexCall "getInvoiceType" ∉ connectedCallback s
      ∧ (connectedCallback s).any Effect.isNavReplace = false := by
  have hfx : connectedCallback s
      = [Effect.alert "Error" "Select Invoices with Outstanding Balance" "error",
         Effect.scriptError "ReferenceError",
         Effect.apexCall "getBankAccounts"] := by
    unfold connectedCallback checkRecordsIsSelected
    rw [if_pos h, if_pos h]
    rfl
  refine ⟨hfx, ?_, ?_⟩
  · rw [hfx]
    simp
  · rw [hfx]
    rfl

theorem claim_C9_witness :
    initState.recordIds = ""
      ∧ Effect.apexCall "getInvoiceType" ∉ connectedCallback initState :=
  ⟨rfl, (claim_C9_amended initState rfl).2.1⟩

end BulkPay
